import Mathlib

/-!
# Verification of the SpecPlane measurement tracking code

Shallow embedding of `simple_tracker.py` (the session state tracker) and of
`specplane_measurement_tracking_system.py` (the run-log aggregator and
analyzer), with theorems settling the specification claims about them.

Timestamps are modelled as rational numbers of minutes: the Python code stores
ISO strings and always manipulates them through
`(t2 - t1).total_seconds() / 60`, so only differences in minutes matter.
Python `float` arithmetic is modelled by exact rational arithmetic, and
`round(x, 1)` by round-half-to-even at one decimal digit.
-/

namespace SpecPlane

/-- Python `round` to the nearest integer, ties to even. -/
def roundHalfEven (q : ℚ) : ℤ :=
  let f := ⌊q⌋
  let r := q - f
  if r < 1/2 then f
  else if 1/2 < r then f + 1
  else if f % 2 = 0 then f else f + 1

/-- Python `round(x, 1)`: round to one decimal digit. -/
def roundTo1 (q : ℚ) : ℚ := (roundHalfEven (10 * q) : ℚ) / 10

/-! ## Session state tracker (`simple_tracker.py`) -/

/-- The `status` strings the tracker writes. -/
inductive Status where
  | in_progress
  | paused
  | completed
  | failed
deriving DecidableEq, Repr

/-- One entry of `pause_history` as built by `resume_experiment`. -/
structure PauseRecord where
  pause_start : ℚ
  pause_end : ℚ
  duration_minutes : ℚ
deriving DecidableEq, Repr

/-- The JSON object held in `experiment_status.json` (and, once finalized, in
`results.json`). Fields that the code only sets at the end are `Option`s. -/
structure SessionData where
  experiment : String
  start_time : ℚ
  status : Status
  paused_time_minutes : ℚ
  pause_history : List PauseRecord
  pause_start : Option ℚ
  end_time : Option ℚ
  total_duration_minutes : Option ℚ
  active_duration_minutes : Option ℚ
deriving DecidableEq, Repr

/-- The fresh session dict written by `start_experiment`. -/
def freshSession (name : String) (now : ℚ) : SessionData :=
  { experiment := name
    start_time := now
    status := .in_progress
    paused_time_minutes := 0
    pause_history := []
    pause_start := none
    end_time := none
    total_duration_minutes := none
    active_duration_minutes := none }

/-- Embedding of `start_experiment(exp_name)`: unconditionally writes a fresh session dict
to the live state file, regardless of whether one already exists. -/
def start_experiment (name : String) (now : ℚ) (_st : Option SessionData) :
    Option SessionData :=
  some (freshSession name now)

/-- Embedding of `pause_experiment()`: no live file or already paused are no-ops; otherwise
sets `status = paused` and `pause_start = now`. -/
def pause_experiment (now : ℚ) (st : Option SessionData) : Option SessionData :=
  match st with
  | none => none
  | some d =>
    if d.status = .paused then some d
    else some { d with status := .paused, pause_start := some now }

/-- Embedding of `resume_experiment()`: when paused with a recorded `pause_start`, appends
`{pause_start, pause_end = now, duration_minutes = round(now - pause_start, 1)}`
to the history, adds the same rounded value to `paused_time_minutes`, clears
`pause_start` and sets `status = in_progress`. The duration is NOT clamped. -/
def resume_experiment (now : ℚ) (st : Option SessionData) : Option SessionData :=
  match st with
  | none => none
  | some d =>
    if d.status ≠ .paused then some d
    else
      match d.pause_start with
      | none => some d
      | some ps =>
        let pause_duration := now - ps
        let rec_entry : PauseRecord :=
          { pause_start := ps, pause_end := now
            duration_minutes := roundTo1 pause_duration }
        some { d with
                pause_history := d.pause_history ++ [rec_entry]
                paused_time_minutes := d.paused_time_minutes + roundTo1 pause_duration
                status := .in_progress
                pause_start := none }

/-- Embedding of `end_experiment(success)`: if paused, first runs `resume_experiment` and
reloads the state; then stamps `end_time`, the terminal status and the rounded
total/active durations, writes the record to `results.json` and deletes the
live state file. Returns `(live state after, result record written)`. -/
def end_experiment (success : Bool) (now : ℚ) (st : Option SessionData) :
    Option SessionData × Option SessionData :=
  match st with
  | none => (none, none)
  | some d =>
    match (if d.status = .paused then resume_experiment now (some d) else some d) with
    | none => (none, none)
    | some d1 =>
      let total_duration := now - d1.start_time
      let active_duration := total_duration - d1.paused_time_minutes
      let final : SessionData :=
        { d1 with
            end_time := some now
            status := if success then .completed else .failed
            total_duration_minutes := some (roundTo1 total_duration)
            active_duration_minutes := some (roundTo1 active_duration) }
      (none, some final)

/-- One CLI operation after `start`, each invoked at some clock reading. -/
inductive TrackerOp where
  | pauseOp (t : ℚ)
  | resumeOp (t : ℚ)
  | endOp (success : Bool) (t : ℚ)
deriving DecidableEq, Repr

/-- Apply one operation to the live state (the result file is not live state). -/
def applyOp (st : Option SessionData) : TrackerOp → Option SessionData
  | .pauseOp t => pause_experiment t st
  | .resumeOp t => resume_experiment t st
  | .endOp s t => (end_experiment s t st).1

/-- Run a sequence of operations on the live state. -/
def runOps (st : Option SessionData) (ops : List TrackerOp) : Option SessionData :=
  ops.foldl applyOp st

/-- The spec's Session State invariant: `pause_start` is present iff the status
is `paused`, and `paused_time_minutes` is the sum of the recorded
`duration_minutes` over `pause_history`. -/
def sessionInvariant (d : SessionData) : Prop :=
  (d.pause_start.isSome = true ↔ d.status = .paused) ∧
    d.paused_time_minutes = (d.pause_history.map PauseRecord.duration_minutes).sum

instance (d : SessionData) : Decidable (sessionInvariant d) := by
  unfold sessionInvariant; infer_instance

/-! ## Run-log aggregator (`specplane_measurement_tracking_system.py`) -/

/-- The fields of an `ExperimentRun` record, as read back from the JSONL log,
that the aggregation and analysis code uses. The code sorts `start_time` ISO
strings lexicographically, which for valid ISO timestamps coincides with
chronological order, so `start_time` is modelled as a rational timestamp. -/
structure RunRecord where
  experiment_type : String
  component_name : String
  start_time : ℚ
  success : Bool
  time_to_green : Option ℚ
  rework_cycles : ℕ
  final_quality_score : Option ℚ
deriving DecidableEq, Repr

/-- Python truthiness of an optional float: `None` and `0.0` are falsy. -/
def truthy (o : Option ℚ) : Bool :=
  match o with
  | none => false
  | some v => v ≠ 0

/-- Python `x if x else None` on an optional float: keeps the value exactly
when it is truthy (present and nonzero). -/
def truthyVal (o : Option ℚ) : Option ℚ :=
  match o with
  | none => none
  | some v => if v = 0 then none else some v

/-- One per-category entry of `aggregated_metrics.json`. -/
structure AggEntry where
  total_runs : ℕ
  success_rate : ℚ
  avg_time_to_green : Option ℚ
  avg_rework_cycles : ℚ
  avg_quality_score : Option ℚ
deriving DecidableEq, Repr

/-- The per-category computation inside `_update_aggregated_metrics`: averages
of `time_to_green` and `final_quality_score` are taken over SUCCESSFUL runs
whose value is truthy; `avg_rework_cycles` is over all runs of the type. -/
def aggregateCategory (type_runs : List RunRecord) : AggEntry :=
  let successful_runs := type_runs.filter (fun r => r.success)
  let times_to_green := successful_runs.filterMap (fun r => truthyVal r.time_to_green)
  let rework_cycles := type_runs.map (fun r => r.rework_cycles)
  let quality_scores := successful_runs.filterMap (fun r => truthyVal r.final_quality_score)
  { total_runs := type_runs.length
    success_rate :=
      if type_runs.length > 0 then (successful_runs.length : ℚ) / type_runs.length else 0
    avg_time_to_green :=
      if times_to_green.isEmpty then none
      else some (times_to_green.sum / times_to_green.length)
    avg_rework_cycles :=
      if rework_cycles.isEmpty then 0
      else ((rework_cycles.sum : ℚ)) / rework_cycles.length
    avg_quality_score :=
      if quality_scores.isEmpty then none
      else some (quality_scores.sum / quality_scores.length) }

/-- Grouping `runs` by `experiment_type` in first-encounter order, as a Python
dict of lists built by the grouping loop. -/
def groupByType (runs : List RunRecord) : List (String × List RunRecord) :=
  runs.foldl (fun acc r =>
    if acc.any (fun p => p.1 = r.experiment_type) then
      acc.map (fun p => if p.1 = r.experiment_type then (p.1, p.2 ++ [r]) else p)
    else acc ++ [(r.experiment_type, [r])]) []

/-- Embedding of `runs = [json.loads(line) for line in f]`: decoding the log lines in order;
the first malformed line (modelled as `none`) raises `JSONDecodeError`,
aborting the whole read. -/
def readAllRuns : List (Option RunRecord) → Except String (List RunRecord)
  | [] => .ok []
  | none :: _ => .error "JSONDecodeError"
  | some r :: rest => (readAllRuns rest).map (fun l => r :: l)

/-- Embedding of `_update_aggregated_metrics`, from the decoded log lines to the snapshot
(an insertion-ordered mapping of category to aggregate entry). -/
def update_aggregated_metrics (lines : List (Option RunRecord)) :
    Except String (List (String × AggEntry)) :=
  (readAllRuns lines).map (fun runs =>
    (groupByType runs).map (fun p => (p.1, aggregateCategory p.2)))

/-! ## Analyzer (`MetricsAnalyzer`) -/

/-- Stable sort by `start_time`, modelling Python's stable
`sorted(runs, key=lambda x: x['start_time'])`. -/
def sortByStartTime (runs : List RunRecord) : List RunRecord :=
  runs.insertionSort (fun a b => a.start_time ≤ b.start_time)

/-- Embedding of `_calculate_improvement_trend`: compare success rates of the first and
second halves of the runs sorted by start time. -/
def calculate_improvement_trend (runs : List RunRecord) : String :=
  if runs.length < 2 then "insufficient_data"
  else
    let sorted_runs := sortByStartTime runs
    let midpoint := sorted_runs.length / 2
    let first_half := sorted_runs.take midpoint
    let second_half := sorted_runs.drop midpoint
    let first_half_success : ℚ :=
      ((first_half.filter (fun r => r.success)).length : ℚ) / first_half.length
    let second_half_success : ℚ :=
      ((second_half.filter (fun r => r.success)).length : ℚ) / second_half.length
    if second_half_success > first_half_success + 1/10 then "improving"
    else if second_half_success < first_half_success - 1/10 then "declining"
    else "stable"

/-- The dict returned by `get_component_trends` for a non-empty match. -/
structure Trends where
  total_attempts : ℕ
  success_rate : ℚ
  avg_time_to_green : ℚ
  total_rework_cycles : ℕ
  improvement_trend : String
deriving DecidableEq, Repr

/-- Embedding of `get_component_trends(component_name)`: filters the runs to one component;
`{}` (here `none`) when none match; otherwise computes the stats. The mean
time-to-green divides by the count of runs with a truthy `time_to_green`,
raising `ZeroDivisionError` when that count is zero. -/
def get_component_trends (allRuns : List RunRecord) (component_name : String) :
    Except String (Option Trends) :=
  let runs := allRuns.filter (fun r => r.component_name = component_name)
  if runs.isEmpty then .ok none
  else
    let withTime := runs.filter (fun r => truthy r.time_to_green)
    if withTime.isEmpty then .error "ZeroDivisionError"
    else
      .ok (some
        { total_attempts := runs.length
          success_rate := ((runs.filter (fun r => r.success)).length : ℚ) / runs.length
          avg_time_to_green :=
            (runs.filterMap (fun r => truthyVal r.time_to_green)).sum / withTime.length
          total_rework_cycles := (runs.map (fun r => r.rework_cycles)).sum
          improvement_trend := calculate_improvement_trend runs })

/-- Python `max(l, key=f)` keeping the first maximum; `none` on an empty list
(where Python raises `ValueError`). -/
def pyMaxBy (f : AggEntry → ℚ) (l : List AggEntry) : Option AggEntry :=
  l.foldl (fun acc x =>
    match acc with
    | none => some x
    | some m => if f x > f m then some x else some m) none

/-- Python `min(l, key=f)` keeping the first minimum; `none` on an empty list. -/
def pyMinBy (f : AggEntry → ℚ) (l : List AggEntry) : Option AggEntry :=
  l.foldl (fun acc x =>
    match acc with
    | none => some x
    | some m => if f x < f m then some x else some m) none

/-- Python `min(d, key=d.get)` over the `fastest_times` dict: the first key
with the minimal value. -/
def pyMinPair (l : List (String × ℚ)) : Option (String × ℚ) :=
  l.foldl (fun acc x =>
    match acc with
    | none => some x
    | some m => if x.2 < m.2 then some x else some m) none

/-- The report content of `generate_experiment_comparison`, with the markdown
string-building abstracted to the data it renders: the table rows and the
three insight selections. -/
structure ComparisonReport where
  rows : List (String × AggEntry)
  best_experiment : String
  fastest_experiment : Option String
  lowest_rework_experiment : String
deriving DecidableEq, Repr

/-- Outcome of `generate_experiment_comparison` when it does not raise. -/
inductive CompareOutcome where
  | noData
  | report (r : ComparisonReport)
deriving DecidableEq, Repr

/-- Embedding of `generate_experiment_comparison()`: the early `"No metrics data available
yet."` return when the snapshot file is absent; otherwise builds the table and
the insights. `max`/`min` over the entries of an EMPTY snapshot raise
`ValueError`; `next(...)` failing raises `StopIteration`. -/
def generate_experiment_comparison (store : Option (List (String × AggEntry))) :
    Except String CompareOutcome :=
  match store with
  | none => .ok .noData
  | some metrics =>
    match pyMaxBy AggEntry.success_rate (metrics.map Prod.snd) with
    | none => .error "ValueError"
    | some best_success_rate =>
      match metrics.find? (fun p => p.2 = best_success_rate) with
      | none => .error "StopIteration"
      | some best_pair =>
        let fastest_times :=
          (metrics.filter (fun p => truthy p.2.avg_time_to_green)).map
            (fun p => (p.1, p.2.avg_time_to_green.getD 0))
        let fastest := (pyMinPair fastest_times).map Prod.fst
        match pyMinBy AggEntry.avg_rework_cycles (metrics.map Prod.snd) with
        | none => .error "ValueError"
        | some lowest_rework =>
          match metrics.find? (fun p => p.2 = lowest_rework) with
          | none => .error "StopIteration"
          | some lowest_pair =>
            .ok (.report
              { rows := metrics
                best_experiment := best_pair.1
                fastest_experiment := fastest
                lowest_rework_experiment := lowest_pair.1 })

/-! ## Spec-side definitions (from the specification's words, for comparison) -/

/-- Modelled from the spec's words for the Aggregate Snapshot: the mean of
`time_to_green` over the records that have a DEFINED value, irrespective of
the success flag; undefined when no record has one. -/
def specAvgTimeToGreen (rs : List RunRecord) : Option ℚ :=
  let vs := rs.filterMap (fun r => r.time_to_green)
  if vs.isEmpty then none else some (vs.sum / vs.length)

/-- The amended per-category mean of `time_to_green`: over the successful
records whose value is present and nonzero. -/
def amendedAvgTimeToGreen (rs : List RunRecord) : Option ℚ :=
  let vs := rs.filterMap (fun r => if r.success then truthyVal r.time_to_green else none)
  if vs.isEmpty then none else some (vs.sum / vs.length)

/-- The amended per-category mean of `final_quality_score`: over the
successful records whose value is present and nonzero. -/
def amendedAvgQualityScore (rs : List RunRecord) : Option ℚ :=
  let vs := rs.filterMap (fun r => if r.success then truthyVal r.final_quality_score else none)
  if vs.isEmpty then none else some (vs.sum / vs.length)

/-- The spec's improvement-trend classification: sort by start time, split
into halves (the first half is the smaller one for an odd count), and compare
the success rates of the halves with a 0.1 margin. -/
def specImprovementTrend (runs : List RunRecord) : String :=
  if runs.length < 2 then "insufficient_data"
  else
    let s := sortByStartTime runs
    let firstHalf := s.take (s.length / 2)
    let secondHalf := s.drop (s.length / 2)
    let rate1 : ℚ := (firstHalf.countP (fun r => r.success)) / firstHalf.length
    let rate2 : ℚ := (secondHalf.countP (fun r => r.success)) / secondHalf.length
    if rate2 > rate1 + 1/10 then "improving"
    else if rate2 < rate1 - 1/10 then "declining"
    else "stable"

/-! ## Claims about the session tracker -/

/-- Unfolding lemma: resuming a paused session with a recorded `pause_start`
appends the rounded duration to the history and to `paused_time_minutes`. -/
lemma resume_paused_eq (d : SessionData) (now ps : ℚ)
    (hs : d.status = .paused) (hp : d.pause_start = some ps) :
    resume_experiment now (some d) =
      some { d with
              pause_history := d.pause_history ++
                [{ pause_start := ps, pause_end := now
                   duration_minutes := roundTo1 (now - ps) }]
              paused_time_minutes := d.paused_time_minutes + roundTo1 (now - ps)
              status := .in_progress
              pause_start := none } := by
  simp [resume_experiment, hs, hp]

/-- C2 counterexample: `start_experiment` on an already-live session does not
fail; it replaces the existing session with a fresh one, so the existing live
session is not left unchanged. -/
theorem start_overwrite_counterexample :
    start_experiment "B" 100 (some (freshSession "A" 0)) = some (freshSession "B" 100) ∧
      some (freshSession "B" 100) ≠ some (freshSession "A" 0) :=
  ⟨rfl, by decide⟩

/-- C2 (amended): `start(name)` never fails: whatever the current live state,
it creates a session with `status = in_progress`, `start_time = now`, empty
pause history and zero paused time, overwriting any existing live state. -/
theorem start_always_creates_fresh (name : String) (now : ℚ) (st : Option SessionData) :
    ∃ d, start_experiment name now st = some d ∧ d.experiment = name ∧
      d.status = .in_progress ∧ d.start_time = now ∧ d.paused_time_minutes = 0 ∧
      d.pause_history = [] ∧ d.pause_start = none :=
  ⟨freshSession name now, rfl, rfl, rfl, rfl, rfl, rfl, rfl⟩

/-- C3 counterexample: resuming at now = 4 a session paused at 10 (clock skew)
records `duration_minutes = -6` in the history and subtracts 6 from
`paused_time_minutes`: no clamping to ≥ 0 happens. -/
theorem resume_negative_duration_counterexample :
    resume_experiment 4
        (some { freshSession "A" 0 with status := .paused, pause_start := some 10 }) =
      some { freshSession "A" 0 with
              status := .in_progress
              pause_start := none
              paused_time_minutes := -6
              pause_history := [{ pause_start := 10, pause_end := 4, duration_minutes := -6 }] } ∧
      (-6 : ℚ) < 0 := by
  refine ⟨?_, by norm_num⟩
  rw [resume_paused_eq _ 4 10 rfl rfl]
  norm_num [freshSession, roundTo1, roundHalfEven]

/-- C3 (amended): for every paused session, `resume()` records exactly
`round(now - pause_start, 1)` both in the appended history entry and as the
increment to `paused_time_minutes`, with no clamping: under clock skew the
recorded value is negative. -/
theorem resume_records_unclamped_duration (d : SessionData) (now ps : ℚ)
    (hs : d.status = .paused) (hp : d.pause_start = some ps) :
    resume_experiment now (some d) =
      some { d with
              pause_history := d.pause_history ++
                [{ pause_start := ps, pause_end := now
                   duration_minutes := roundTo1 (now - ps) }]
              paused_time_minutes := d.paused_time_minutes + roundTo1 (now - ps)
              status := .in_progress
              pause_start := none } :=
  resume_paused_eq d now ps hs hp

/-- A concrete paused session used to witness the amended C3 theorem. -/
def pausedSessionE : SessionData :=
  { freshSession "E" 0 with status := .paused, pause_start := some 5 }

/-- Witness for the amended C3 theorem at a concrete paused session. -/
theorem resume_records_unclamped_duration_witness :
    resume_experiment 9 (some pausedSessionE) =
      some { pausedSessionE with
              pause_history := pausedSessionE.pause_history ++
                [{ pause_start := 5, pause_end := 9
                   duration_minutes := roundTo1 (9 - 5) }]
              paused_time_minutes := pausedSessionE.paused_time_minutes + roundTo1 (9 - 5)
              status := .in_progress
              pause_start := none } :=
  resume_records_unclamped_duration pausedSessionE 9 5 rfl rfl

/-- C10: in every successful resume, the rounded duration stored in the
appended history entry and the amount added to `paused_time_minutes` are the
same value `round(now - pause_start, 1)`. -/
theorem resume_rounded_value_consistent (d : SessionData) (now ps : ℚ) (d' : SessionData)
    (hs : d.status = .paused) (hp : d.pause_start = some ps)
    (hr : resume_experiment now (some d) = some d') :
    d'.pause_history.getLast? =
        some { pause_start := ps, pause_end := now, duration_minutes := roundTo1 (now - ps) } ∧
      d'.paused_time_minutes = d.paused_time_minutes + roundTo1 (now - ps) := by
  rw [resume_paused_eq d now ps hs hp] at hr
  cases hr
  simp

/-- A concrete paused session used to witness C10. -/
def pausedSessionF : SessionData :=
  { freshSession "F" 0 with status := .paused, pause_start := some 2 }

/-- The session obtained by resuming `pausedSessionF` at time 7. -/
def resumedSessionF : SessionData :=
  { freshSession "F" 0 with
      status := .in_progress
      pause_start := none
      paused_time_minutes := 5
      pause_history := [{ pause_start := 2, pause_end := 7, duration_minutes := 5 }] }

/-- Witness for C10 at a concrete paused session. -/
theorem resume_rounded_value_consistent_witness :
    resumedSessionF.pause_history.getLast? =
        some { pause_start := 2, pause_end := 7, duration_minutes := roundTo1 (7 - 2) } ∧
      resumedSessionF.paused_time_minutes =
        pausedSessionF.paused_time_minutes + roundTo1 (7 - 2) :=
  resume_rounded_value_consistent pausedSessionF 7 2 resumedSessionF rfl rfl (by
    rw [resume_paused_eq pausedSessionF 7 2 rfl rfl]
    norm_num [pausedSessionF, resumedSessionF, freshSession, roundTo1, roundHalfEven])

/-- C4: ending while paused first reuses `resume_experiment`'s accounting, so
`end` at time t equals `resume` at t followed by `end` at t: no paused
interval is lost, and the final `paused_time_minutes` and `pause_history`
agree. -/
theorem end_while_paused_eq_resume_then_end (d : SessionData) (success : Bool) (t : ℚ)
    (hs : d.status = .paused) :
    end_experiment success t (some d) =
      end_experiment success t (resume_experiment t (some d)) := by
  cases hps : d.pause_start with
  | none => simp [end_experiment, resume_experiment, hs, hps]
  | some ps => simp [end_experiment, resume_experiment, hs, hps]

/-- The function `end_experiment` always leaves the live state file deleted (or absent). -/
lemma end_experiment_live_none (success : Bool) (now : ℚ) (st : Option SessionData) :
    (end_experiment success now st).1 = none := by
  cases st with
  | none => rfl
  | some d =>
    simp only [end_experiment]
    split <;> rfl

/-- Each tracker operation preserves the session invariant of the live state. -/
lemma applyOp_preserves (op : TrackerOp) (st : Option SessionData)
    (h : ∀ e, st = some e → sessionInvariant e) :
    ∀ d', applyOp st op = some d' → sessionInvariant d' := by
  intro d' hd
  cases op with
  | pauseOp t =>
    cases st with
    | none => simp [applyOp, pause_experiment] at hd
    | some d =>
      obtain ⟨h1, h2⟩ := h d rfl
      by_cases hp : d.status = .paused
      · simp only [applyOp, pause_experiment, if_pos hp, Option.some.injEq] at hd
        subst hd
        exact ⟨h1, h2⟩
      · simp only [applyOp, pause_experiment, if_neg hp, Option.some.injEq] at hd
        subst hd
        exact ⟨by simp, by simpa using h2⟩
  | resumeOp t =>
    cases st with
    | none => simp [applyOp, resume_experiment] at hd
    | some d =>
      obtain ⟨h1, h2⟩ := h d rfl
      by_cases hp : d.status = .paused
      · cases hps : d.pause_start with
        | none =>
          simp only [applyOp, resume_experiment, hp, hps, ne_eq, not_true_eq_false,
            if_false, Option.some.injEq] at hd
          subst hd
          exact ⟨h1, h2⟩
        | some ps =>
          have := resume_paused_eq d t ps hp hps
          simp only [applyOp] at hd
          rw [this, Option.some.injEq] at hd
          subst hd
          refine ⟨by simp, ?_⟩
          simp [List.sum_append, h2]
      · simp only [applyOp, resume_experiment, hp, ne_eq, not_false_eq_true,
          if_true, Option.some.injEq] at hd
        subst hd
        exact ⟨h1, h2⟩
  | endOp s t =>
    have : applyOp st (.endOp s t) = none := end_experiment_live_none s t st
    rw [this] at hd
    exact absurd hd (by simp)

/-- C1: after `start(name)` and any interleaving of pause, resume and end, the
live session state always satisfies the invariant: `pause_start` is present
iff the status is `paused`, and `paused_time_minutes` is the sum of
`duration_minutes` over `pause_history`. -/
theorem tracker_invariant_reachable (name : String) (t0 : ℚ) (ops : List TrackerOp)
    (d : SessionData) (h : runOps (start_experiment name t0 none) ops = some d) :
    sessionInvariant d := by
  have main : ∀ (ops : List TrackerOp) (st : Option SessionData),
      (∀ e, st = some e → sessionInvariant e) →
      ∀ d, runOps st ops = some d → sessionInvariant d := by
    intro ops
    induction ops with
    | nil => intro st hst d hd; exact hst d hd
    | cons op rest ih =>
      intro st hst d hd
      exact ih (applyOp st op) (applyOp_preserves op st hst) d hd
  refine main ops _ ?_ d h
  intro e he
  simp only [start_experiment, Option.some.injEq] at he
  subst he
  exact ⟨by simp [freshSession], by simp [freshSession]⟩

/-- The live session after `start "E"` at 0, `pause` at 5 and `resume` at 8. -/
def sessionAfterPauseResume : SessionData :=
  { experiment := "E", start_time := 0, status := .in_progress
    paused_time_minutes := 3
    pause_history := [{ pause_start := 5, pause_end := 8, duration_minutes := 3 }]
    pause_start := none, end_time := none
    total_duration_minutes := none, active_duration_minutes := none }

/-- Witness for C1 at a concrete operation sequence. -/
theorem tracker_invariant_reachable_witness : sessionInvariant sessionAfterPauseResume :=
  tracker_invariant_reachable "E" 0 [.pauseOp 5, .resumeOp 8] sessionAfterPauseResume (by
    show runOps (some (freshSession "E" 0)) _ = some sessionAfterPauseResume
    have h1 : applyOp (some (freshSession "E" 0)) (.pauseOp 5) =
        some { freshSession "E" 0 with status := .paused, pause_start := some 5 } := by
      simp [applyOp, pause_experiment, freshSession]
    have h2 : applyOp (some { freshSession "E" 0 with status := .paused, pause_start := some 5 })
        (.resumeOp 8) = some sessionAfterPauseResume := by
      simp only [applyOp]
      rw [resume_paused_eq _ 8 5 rfl rfl]
      norm_num [freshSession, sessionAfterPauseResume, roundTo1, roundHalfEven]
    show runOps (applyOp (some (freshSession "E" 0)) (.pauseOp 5)) [.resumeOp 8] =
      some sessionAfterPauseResume
    rw [h1]
    exact h2)

/-- A concrete paused session used to witness C4. -/
def pausedSessionG : SessionData :=
  { freshSession "G" 0 with status := .paused, pause_start := some 3 }

/-- Witness for C4 at a concrete paused session. -/
theorem end_while_paused_eq_resume_then_end_witness :
    end_experiment true 10 (some pausedSessionG) =
      end_experiment true 10 (resume_experiment 10 (some pausedSessionG)) :=
  end_while_paused_eq_resume_then_end pausedSessionG true 10 rfl

/-! ## Claims about the run-log aggregator and analyzer -/

/-- A successful run of category "A" with `time_to_green = 5`. -/
def runA1 : RunRecord :=
  { experiment_type := "A", component_name := "X", start_time := 1
    success := true, time_to_green := some 5, rework_cycles := 0
    final_quality_score := none }

/-- A failed run of category "A" with `time_to_green = 7`. -/
def runA2 : RunRecord :=
  { experiment_type := "A", component_name := "X", start_time := 2
    success := false, time_to_green := some 7, rework_cycles := 0
    final_quality_score := none }

/-- C5 counterexample: with a successful run (`time_to_green = 5`) and a
failed run (`time_to_green = 7`) in category "A", the snapshot's
`avg_time_to_green` is 5 — the failed run's defined value is ignored — while
the claimed mean over all records with a defined value is 6. -/
theorem avg_time_to_green_counterexample :
    update_aggregated_metrics [some runA1, some runA2] =
        .ok [("A", { total_runs := 2, success_rate := 1/2, avg_time_to_green := some 5
                     avg_rework_cycles := 0, avg_quality_score := none })] ∧
      specAvgTimeToGreen [runA1, runA2] = some 6 ∧
      (some (5 : ℚ) : Option ℚ) ≠ some 6 := by
  refine ⟨?_, ?_, by norm_num⟩
  · norm_num [update_aggregated_metrics, readAllRuns, groupByType, aggregateCategory,
      truthyVal, runA1, runA2, Except.map, List.filter, List.filterMap]
    exact fun h => nomatch h
  · norm_num [specAvgTimeToGreen, runA1, runA2, List.filterMap]

/-- C5 (amended): per category, `avg_time_to_green` is the mean of
`time_to_green` over the SUCCESSFUL records whose value is present and
nonzero, and `avg_quality_score` is likewise the mean over the successful
records with a present, nonzero `final_quality_score`. -/
theorem aggregate_means_over_successful (rs : List RunRecord) :
    (aggregateCategory rs).avg_time_to_green = amendedAvgTimeToGreen rs ∧
      (aggregateCategory rs).avg_quality_score = amendedAvgQualityScore rs := by
  have key : ∀ (g : RunRecord → Option ℚ),
      (rs.filter (fun r => r.success)).filterMap g =
        rs.filterMap (fun r => if r.success then g r else none) := by
    intro g
    induction rs with
    | nil => rfl
    | cons a l ih =>
      by_cases ha : a.success <;>
        simp [List.filter_cons, ha, List.filterMap_cons, ih]
  exact ⟨by simp only [aggregateCategory, amendedAvgTimeToGreen, key],
    by simp only [aggregateCategory, amendedAvgQualityScore, key]⟩

/-- A run for component "X" whose `time_to_green` is null. -/
def runNoTimeToGreen : RunRecord :=
  { experiment_type := "A", component_name := "X", start_time := 1
    success := true, time_to_green := none, rework_cycles := 2
    final_quality_score := none }

/-- C6: on a non-empty match where no record has a `time_to_green` value,
`get_component_trends` raises `ZeroDivisionError` instead of returning an
undefined mean. -/
theorem trends_zero_division_on_no_time_to_green :
    get_component_trends [runNoTimeToGreen] "X" = .error "ZeroDivisionError" := by
  simp [get_component_trends, runNoTimeToGreen, truthy]

/-- A well-formed run record of category "B". -/
def runB : RunRecord :=
  { experiment_type := "B", component_name := "Y", start_time := 1
    success := true, time_to_green := some 3, rework_cycles := 1
    final_quality_score := some 1 }

/-- C7: a malformed line in the log makes the whole read raise
`JSONDecodeError`, aborting the aggregation instead of skipping the line:
the well-formed record never reaches the snapshot. -/
theorem recompute_aborts_on_malformed_line :
    update_aggregated_metrics [some runB, none] = .error "JSONDecodeError" := by
  simp [update_aggregated_metrics, readAllRuns, Except.map]

/-- C8: with the snapshot store absent the comparison reports no data, but on
a PRESENT and EMPTY snapshot it raises `ValueError` (from `max()` over an
empty sequence) instead of the `NoData` failure. -/
theorem compare_report_value_error_on_empty_snapshot :
    generate_experiment_comparison (some []) = .error "ValueError" ∧
      generate_experiment_comparison none = .ok .noData :=
  ⟨rfl, rfl⟩

/-- The code's trend computation agrees with the spec's classification. -/
lemma trend_eq_spec (runs : List RunRecord) :
    calculate_improvement_trend runs = specImprovementTrend runs := by
  simp only [calculate_improvement_trend, specImprovementTrend,
    List.countP_eq_length_filter]

/-- C9: whenever `get_component_trends` returns a result, its
`improvement_trend` equals the spec's classification of the matching records
(sort by start time, split into halves with the first half smaller for an odd
count, compare half success rates with a 0.1 margin; `insufficient_data`
for fewer than 2 records). -/
theorem trends_improvement_trend_matches_spec (allRuns : List RunRecord)
    (comp : String) (t : Trends)
    (h : get_component_trends allRuns comp = .ok (some t)) :
    t.improvement_trend =
      specImprovementTrend (allRuns.filter (fun r => r.component_name = comp)) := by
  simp only [get_component_trends] at h
  split at h
  · exact absurd h (by simp)
  · split at h
    · exact absurd h (by simp)
    · simp only [Except.ok.injEq, Option.some.injEq] at h
      subst h
      exact trend_eq_spec _

/-- A failed early run for component "X". -/
def runX1 : RunRecord :=
  { experiment_type := "A", component_name := "X", start_time := 1
    success := false, time_to_green := some 5, rework_cycles := 0
    final_quality_score := none }

/-- A successful later run for component "X". -/
def runX2 : RunRecord :=
  { experiment_type := "A", component_name := "X", start_time := 2
    success := true, time_to_green := some 7, rework_cycles := 0
    final_quality_score := none }

/-- The trends dict computed for component "X" from `[runX1, runX2]`. -/
def trendsX : Trends :=
  { total_attempts := 2, success_rate := 1/2, avg_time_to_green := 6
    total_rework_cycles := 0, improvement_trend := "improving" }

/-- Witness for C9 at a concrete two-run history. -/
theorem trends_improvement_trend_matches_spec_witness :
    trendsX.improvement_trend =
      specImprovementTrend ([runX1, runX2].filter (fun r => r.component_name = "X")) :=
  trends_improvement_trend_matches_spec [runX1, runX2] "X" trendsX (by
    norm_num [get_component_trends, runX1, runX2, trendsX, truthy, truthyVal,
      calculate_improvement_trend, sortByStartTime, List.insertionSort,
      List.orderedInsert, List.filter, List.filterMap])

end SpecPlane
